import Mathlib

/-!
Verification of the pikepdf `_qpdf` binding (src/src/qpdf.cpp) against its
natural-language specification.  The binding layer (the exception
translator, the argument dispatch of `open_pdf`, the writer configuration
of the `save` lambda) is embedded directly from the C++ source.  The
underlying QPDF engine (cross-reference resolution, object graph, page
tree, writer) is not part of this repository, so the parts of it the
properties need are modelled from the specification text; such definitions
carry a doc comment starting with "Modelled from the spec".
-/

namespace PikePdf

/-! ## Error codes and Python-level exceptions -/

/-- qpdf error codes (`qpdf_error_code_e` from qpdf/Constants.h), as consumed
by `QPDFExc::getErrorCode()` in the exception translator. -/
inductive QpdfErrorCode where
  | e_success
  | e_internal
  | e_system
  | e_unsupported
  | e_password
  | e_damaged_pdf
deriving DecidableEq, Repr

/-- Python-level exceptions that the binding can raise. -/
inductive PyExc where
  | PDFError (msg : String)
  | PasswordError (msg : String)
  | ValueError (msg : String)
  | TypeError (msg : String)
deriving DecidableEq, Repr

/-- The registered exception translator from src/src/qpdf.cpp lines 125-135:
a `QPDFExc` whose error code is `qpdf_e_password` becomes `PasswordError`,
every other `QPDFExc` becomes the generic `PDFError`. -/
def register_exception_translator (code : QpdfErrorCode) (msg : String) : PyExc :=
  if code = QpdfErrorCode.e_password then
    PyExc.PasswordError msg
  else
    PyExc.PDFError msg

/-! ## `open_pdf` argument dispatch (src/src/qpdf.cpp lines 61-110) -/

/-- Abstraction of a Python positional argument as seen by `open_pdf`:
whether it has `read` and `seek` attributes, and whether it is an instance
of `io.TextIOBase`. -/
structure PyArg where
  hasRead : Bool
  hasSeek : Bool
  isTextIOBase : Bool
deriving DecidableEq, Repr

/-- Observable side effects of `open_pdf` on its input while handing it to
libqpdf. -/
inductive OpenEffect where
  | readStreamData
  | processMemoryFile
  | processFile
deriving DecidableEq, Repr

/-- Embedding of `open_pdf` (src/src/qpdf.cpp lines 61-110), tracking the
effects performed and the outcome.  The source checks `args.size() < 1` and
`args.size() > 2` first, then dispatches on whether `args[0]` has both
`read` and `seek` attributes (stream branch, with the `TextIOBase` check
raised before calling `read()`); otherwise it treats `args[0]` as a
filesystem path and calls `processFile`. -/
def open_pdf (args : List PyArg) : List OpenEffect × Except PyExc Unit :=
  match args with
  | [] => ([], Except.error (PyExc.ValueError "not enough arguments"))
  | a0 :: rest =>
    if rest.length > 1 then
      ([], Except.error (PyExc.ValueError "too many arguments"))
    else if a0.hasRead && a0.hasSeek then
      if a0.isTextIOBase then
        ([], Except.error (PyExc.TypeError "stream must be binary, readable and seekable"))
      else
        ([OpenEffect.readStreamData, OpenEffect.processMemoryFile], Except.ok ())
    else
      ([OpenEffect.processFile], Except.ok ())

/-! ## The writer configuration of the `save` lambda (src/src/qpdf.cpp lines 193-214) -/

/-- qpdf stream data modes (`qpdf_stream_data_e` from qpdf/Constants.h). -/
inductive StreamDataMode where
  | s_uncompress
  | s_preserve
  | s_compress
deriving DecidableEq, Repr

/-- The knobs of `QPDFWriter` that the `save` lambda touches. -/
structure QPDFWriterConfig where
  staticID : Bool
  streamDataMode : StreamDataMode
deriving DecidableEq, Repr

/-- The parameters the `save` binding exposes (src/src/qpdf.cpp lines
211-213): `static_id` (default false) and `preserve_pdfa` (default false),
besides the destination filename.  There is no stream-data-mode
parameter. -/
structure SaveArgs where
  static_id : Bool
  preserve_pdfa : Bool
deriving DecidableEq, Repr

/-- Embedding of the writer-configuration part of the `save` lambda
(src/src/qpdf.cpp lines 196-203): starting from the freshly constructed
writer `w`, if `static_id` is set it calls `w.setStaticID(true)` and
`w.setStreamDataMode(qpdf_s_uncompress)`; otherwise it leaves `w`
untouched before `w.write()`. -/
def save (a : SaveArgs) (w : QPDFWriterConfig) : QPDFWriterConfig :=
  if a.static_id then
    { w with staticID := true, streamDataMode := StreamDataMode.s_uncompress }
  else
    w

/-! ## The engine data model

Modelled from the spec, section 3 (DATA MODEL): the engine behind the
binding is the QPDF library, whose sources are not in this repository. -/

/-- Modelled from the spec: `ObjectValue`, the tagged union of PDF value
kinds (null, boolean, integer, name, string bytes, array, dictionary,
stream, indirect reference).  Real numbers are left out: no claim touches
them.  An indirect reference carries the object number; a bare lookup by
number always uses the current generation. -/
inductive ObjVal where
  | null
  | boolean (b : Bool)
  | integer (i : Int)
  | name (s : String)
  | strBytes (bs : List Nat)
  | array (xs : List ObjVal)
  | dict (kvs : List (String × ObjVal))
  | streamObj (kvs : List (String × ObjVal)) (payload : List Nat)
  | ref (n : Nat)
deriving Repr

/-- Modelled from the spec: `XRefEntry`, here reduced to the Free/InUse tag
plus the generation.  Byte offsets and compressed containers are not needed
by any claim, so an InUse entry points at the in-memory object cache. -/
inductive XRefEntry where
  | free (gen : Nat)
  | inUse (gen : Nat)
deriving DecidableEq, Repr

/-- Modelled from the spec: the Document owns the merged xref table, the
cache of materialized objects (an association list keyed by object
number), the trailer dictionary and the accumulated non-fatal warnings. -/
structure Document where
  objects : List (Nat × ObjVal)
  xref : List (Nat × XRefEntry)
  trailer : List (String × ObjVal)
  warnings : List String

/-- First-match association lookup in the object cache. -/
def lookupObj (n : Nat) : List (Nat × ObjVal) → Option ObjVal
  | [] => none
  | p :: rest => if p.1 = n then some p.2 else lookupObj n rest

/-- First-match association lookup in the xref table. -/
def lookupEntry (n : Nat) : List (Nat × XRefEntry) → Option XRefEntry
  | [] => none
  | p :: rest => if p.1 = n then some p.2 else lookupEntry n rest

/-- First-match key lookup in a PDF dictionary. -/
def dictGet (k : String) : List (String × ObjVal) → Option ObjVal
  | [] => none
  | p :: rest => if p.1 = k then some p.2 else dictGet k rest

/-- Modelled from the spec: `get_object` as the total, tolerant-reader
lookup — an id whose entry is Free, absent, or has no materialized value
resolves to Null, never an error (spec sections 4.4 and 9). -/
def getObject (d : Document) (n : Nat) : ObjVal :=
  match lookupEntry n d.xref with
  | some (XRefEntry.inUse _) => (lookupObj n d.objects).getD ObjVal.null
  | _ => ObjVal.null

/-- Modelled from the spec: explicit dereference by number plus generation
(the `_get_object_id` binding of `QPDF::getObjectByID`); the generation
must match the recorded one, and a Free or absent entry resolves to
Null. -/
def getObjectByID (d : Document) (n g : Nat) : ObjVal :=
  match lookupEntry n d.xref with
  | some (XRefEntry.inUse g2) =>
      if g2 = g then (lookupObj n d.objects).getD ObjVal.null else ObjVal.null
  | _ => ObjVal.null

/-- Modelled from the spec: resolving a value — an indirect reference goes
through the object table, any direct value is itself. -/
def resolve (d : Document) (v : ObjVal) : ObjVal :=
  match v with
  | ObjVal.ref n => getObject d n
  | _ => v

/-- The object numbers referenced from the /Kids entry of a page tree
node. -/
def kidsOf (v : ObjVal) : List Nat :=
  match v with
  | ObjVal.dict kvs =>
    match dictGet "Kids" kvs with
    | some (ObjVal.array xs) =>
      xs.filterMap (fun x => match x with | ObjVal.ref n => some n | _ => none)
    | _ => []
  | _ => []

/-- A leaf page node: a dictionary with /Type /Page. -/
def isPageNode (v : ObjVal) : Bool :=
  match v with
  | ObjVal.dict kvs =>
    match dictGet "Type" kvs with
    | some (ObjVal.name t) => t = "Page"
    | _ => false
  | _ => false

/-- The set of object numbers that have a cached object: the only ids whose
value can contribute kids to the page-tree walk. -/
def idUniverse (d : Document) : Finset Nat :=
  (d.objects.map Prod.fst).toFinset

/-- Modelled from the spec: `all_pages` as a depth-first walk of the page
tree that flattens intermediate /Type /Pages nodes in document order and
breaks cycles by never visiting a node twice (spec section 4.4).  Returns
the page numbers in visit order together with the final visited set.
Termination holds for arbitrary graphs, cyclic ones included: every step
either visits a fresh node of `idUniverse`, or shortens the worklist. -/
def pageWalk (d : Document) (visited stack : List Nat) : List Nat × List Nat :=
  match stack with
  | [] => ([], visited)
  | n :: rest =>
    if hv : n ∈ visited then
      pageWalk d visited rest
    else
      if hp : isPageNode (getObject d n) then
        let r := pageWalk d (n :: visited) rest
        (n :: r.1, r.2)
      else
        pageWalk d (n :: visited) (kidsOf (getObject d n) ++ rest)
termination_by (((idUniverse d).filter (fun x => x ∉ visited)).card, stack.length)
decreasing_by
  · apply Prod.Lex.right
    simp
  · by_cases hu : n ∈ idUniverse d
    · apply Prod.Lex.left
      apply Finset.card_lt_card
      rw [Finset.ssubset_iff_of_subset]
      · exact ⟨n, Finset.mem_filter.mpr ⟨hu, hv⟩, by simp⟩
      · intro x hx
        rw [Finset.mem_filter] at hx ⊢
        exact ⟨hx.1, fun hmem => hx.2 (List.mem_cons_of_mem n hmem)⟩
    · have hcongr : (idUniverse d).filter (fun x => x ∉ n :: visited) =
          (idUniverse d).filter (fun x => x ∉ visited) := by
        apply Finset.filter_congr
        intro x hx
        have hxn : x ≠ n := fun he => hu (he ▸ hx)
        simp [List.mem_cons, hxn]
      rw [hcongr]
      apply Prod.Lex.right
      simp
  · by_cases hu : n ∈ idUniverse d
    · apply Prod.Lex.left
      apply Finset.card_lt_card
      rw [Finset.ssubset_iff_of_subset]
      · exact ⟨n, Finset.mem_filter.mpr ⟨hu, hv⟩, by simp⟩
      · intro x hx
        rw [Finset.mem_filter] at hx ⊢
        exact ⟨hx.1, fun hmem => hx.2 (List.mem_cons_of_mem n hmem)⟩
    · have hcongr : (idUniverse d).filter (fun x => x ∉ n :: visited) =
          (idUniverse d).filter (fun x => x ∉ visited) := by
        apply Finset.filter_congr
        intro x hx
        have hxn : x ≠ n := fun he => hu (he ▸ hx)
        simp [List.mem_cons, hxn]
      have hnone : ∀ l : List (Nat × ObjVal), n ∉ l.map Prod.fst → lookupObj n l = none := by
        intro l
        induction l with
        | nil => intro _; rfl
        | cons p rest2 ih =>
          intro hm
          simp only [List.map_cons, List.mem_cons] at hm
          push_neg at hm
          simp only [lookupObj]
          rw [if_neg (by omega), ih hm.2]
      have hnull : getObject d n = ObjVal.null := by
        unfold getObject
        rw [hnone d.objects (fun hm => hu (List.mem_toFinset.mpr hm))]
        cases lookupEntry n d.xref with
        | none => rfl
        | some e => cases e <;> rfl
      rw [hcongr, hnull]
      apply Prod.Lex.right
      simp [kidsOf]

/-- Modelled from the spec: the /Root of the trailer, resolved. -/
def rootOf (d : Document) : ObjVal :=
  match dictGet "Root" d.trailer with
  | some v => resolve d v
  | none => ObjVal.null

/-- The initial worklist for the page tree walk: the object referenced by
/Root `/Pages`, when present. -/
def rootPagesStack (d : Document) : List Nat :=
  match rootOf d with
  | ObjVal.dict kvs =>
    match dictGet "Pages" kvs with
    | some (ObjVal.ref n) => [n]
    | _ => []
  | _ => []

/-- Modelled from the spec: the `pages` property / `all_pages` — page
object numbers in document order from the depth-first walk. -/
def getAllPages (d : Document) : List Nat :=
  (pageWalk d [] (rootPagesStack d)).1

/-- Modelled from the spec: the drain-warnings operation returns the
accumulated non-fatal diagnostics and clears them (spec section 6). -/
def getWarnings (d : Document) : List String × Document :=
  (d.warnings, { d with warnings := [] })

/-- Freeing an xref entry: mark Free and increment the generation. -/
def freeBump : XRefEntry → XRefEntry
  | XRefEntry.inUse g => XRefEntry.free (g + 1)
  | XRefEntry.free g => XRefEntry.free (g + 1)

/-- Modelled from the spec: `remove_object` — marks the slot Free,
increments the generation and evicts the cache entry (spec section
4.4). -/
def removeObject (d : Document) (n : Nat) : Document :=
  { d with
    xref := d.xref.map (fun p => if p.1 = n then (p.1, freeBump p.2) else p)
    objects := d.objects.filter (fun p => p.1 ≠ n) }

/-- Drop every /Kids reference to object `n` from a page tree node. -/
def removeKid (n : Nat) : ObjVal → ObjVal
  | ObjVal.dict kvs =>
      ObjVal.dict (kvs.map (fun kv =>
        if kv.1 = "Kids" then
          (kv.1, match kv.2 with
            | ObjVal.array xs =>
                ObjVal.array (xs.filter (fun x =>
                  match x with | ObjVal.ref m => m ≠ n | _ => true))
            | v => v)
        else kv))
  | v => v

/-- Modelled from the spec: `remove_page` — unlinks the page from every
/Kids array and then removes the object (Free, generation bump, cache
eviction). -/
def removePage (d : Document) (n : Nat) : Document :=
  removeObject { d with objects := d.objects.map (fun p => (p.1, removeKid n p.2)) } n

/-- A deterministic structural digest of a PDF value, used to derive the
static /ID from document content. -/
def objHash : ObjVal → Nat
  | ObjVal.null => 1
  | ObjVal.boolean b => if b then 2 else 3
  | ObjVal.integer i => 4 + 2 * i.natAbs + (if i < 0 then 1 else 0)
  | ObjVal.name s => 5 + 7 * s.length
  | ObjVal.strBytes bs => 6 + 11 * bs.sum
  | ObjVal.array xs => 8 + 13 * (xs.attach.map (fun x => objHash x.1)).sum
  | ObjVal.dict kvs => 9 + 17 * (kvs.attach.map (fun kv => kv.1.1.length + objHash kv.1.2)).sum
  | ObjVal.streamObj kvs payload =>
      10 + 19 * ((kvs.attach.map (fun kv => kv.1.1.length + objHash kv.1.2)).sum + payload.sum)
  | ObjVal.ref n => 12 + 23 * n
termination_by v => sizeOf v
decreasing_by
  all_goals simp_wf
  · have hm := List.sizeOf_lt_of_mem x.2
    omega
  · have hm := List.sizeOf_lt_of_mem kv.2
    obtain ⟨⟨ks, vv⟩, hkv⟩ := kv
    simp at hm ⊢
    omega
  · have hm := List.sizeOf_lt_of_mem kv.2
    obtain ⟨⟨ks, vv⟩, hkv⟩ := kv
    simp at hm ⊢
    omega

/-- Modelled from the spec: the deterministic per-save /ID derived from
document content in static identifier mode (spec section 4.6). -/
def contentHash (d : Document) : Nat :=
  (d.objects.map (fun p => 29 * p.1 + objHash p.2)).sum +
    31 * (d.trailer.map (fun kv => kv.1.length + objHash kv.2)).sum

/-- Modelled from the spec: the serialized output of one save — the emitted
object bodies in file order, the written trailer, the declared
cross-reference structure (`none` models a truncated or garbage xref
offset) and the /ID trailer entry.  Stream payloads are stored decoded, so
forcing uncompressed output leaves them as they are. -/
structure PdfFile where
  body : List (Nat × ObjVal)
  fileTrailer : List (String × ObjVal)
  declaredXref : Option (List (Nat × XRefEntry))
  fileID : Nat

/-- The xref table matching a file body: one InUse entry per emitted
object. -/
def xrefFromBody (l : List (Nat × ObjVal)) : List (Nat × XRefEntry) :=
  l.map (fun p => (p.1, XRefEntry.inUse 0))

/-- Whether the xref table records `n` as a live (InUse) object. -/
def liveB (x : List (Nat × XRefEntry)) (n : Nat) : Bool :=
  match lookupEntry n x with
  | some (XRefEntry.inUse _) => true
  | _ => false

/-- The live (InUse) materialized objects of a document: what the writer
emits. -/
def liveObjects (d : Document) : List (Nat × ObjVal) :=
  d.objects.filter (fun p => liveB d.xref p.1)

/-- The writer emits objects in ascending id order (spec section 4.6). -/
def sortBody (l : List (Nat × ObjVal)) : List (Nat × ObjVal) :=
  List.insertionSort (fun a b => a.1 ≤ b.1) l

/-- Modelled from the spec: one save — emit each live object in ascending
id order, write the trailer and an xref for the emitted bodies, and set
the /ID entry: derived deterministically from content when `static_id` is
set, otherwise from the per-save random value `rng` (spec sections 4.6 and
6). -/
def saveFile (d : Document) (static_id : Bool) (rng : Nat) : PdfFile :=
  let body := sortBody (liveObjects d)
  { body := body
    fileTrailer := d.trailer
    declaredXref := some (xrefFromBody body)
    fileID := if static_id then contentHash d else rng }

/-- Modelled from the spec: the recovery scan — a linear pass over the
object bodies where the last occurrence of a given id wins (spec section
4.3). -/
def recoveryScan : List (Nat × ObjVal) → List (Nat × ObjVal)
  | [] => []
  | p :: rest =>
    if p.1 ∈ rest.map Prod.fst then recoveryScan rest
    else p :: recoveryScan rest

/-- Modelled from the spec: one open — with a usable declared xref the
structured parse succeeds; with a truncated or garbage xref offset,
`attempt_recovery = true` rebuilds the table by the recovery scan while
`attempt_recovery = false` fails with the generic structural error
category, surfaced as `PDFError` (spec sections 4.3 and 7). -/
def openFile (attempt_recovery : Bool) (f : PdfFile) : Except PyExc Document :=
  match f.declaredXref with
  | some xr =>
      Except.ok { objects := f.body, xref := xr, trailer := f.fileTrailer, warnings := [] }
  | none =>
      if attempt_recovery then
        let body := recoveryScan f.body
        Except.ok { objects := body, xref := xrefFromBody body, trailer := f.fileTrailer,
                    warnings := ["file is damaged; attempting to reconstruct cross-reference table"] }
      else
        Except.error (PyExc.PDFError "unable to find trailer dictionary while recovering damaged file")

/-- Corrupting a saved file: the declared cross-reference offset becomes
truncated or garbage while the object bodies stay intact. -/
def corruptXref (f : PdfFile) : PdfFile :=
  { f with declaredXref := none }

/-- A well-formed two-page fixture document. -/
def exampleDoc : Document :=
  { objects :=
      [ (1, ObjVal.dict [("Type", ObjVal.name "Catalog"), ("Pages", ObjVal.ref 2)])
      , (2, ObjVal.dict [("Type", ObjVal.name "Pages"),
            ("Kids", ObjVal.array [ObjVal.ref 3, ObjVal.ref 4]),
            ("Count", ObjVal.integer 2)])
      , (3, ObjVal.dict [("Type", ObjVal.name "Page"), ("Parent", ObjVal.ref 2)])
      , (4, ObjVal.dict [("Type", ObjVal.name "Page"), ("Parent", ObjVal.ref 2)]) ]
    xref := [(1, XRefEntry.inUse 0), (2, XRefEntry.inUse 0),
             (3, XRefEntry.inUse 0), (4, XRefEntry.inUse 0)]
    trailer := [("Root", ObjVal.ref 1), ("Size", ObjVal.integer 5)]
    warnings := [] }

/-- A malformed fixture: the /Kids array of the page tree root points back
at the root itself, forming a cycle. -/
def cyclicDoc : Document :=
  { objects :=
      [ (1, ObjVal.dict [("Type", ObjVal.name "Catalog"), ("Pages", ObjVal.ref 2)])
      , (2, ObjVal.dict [("Type", ObjVal.name "Pages"),
            ("Kids", ObjVal.array [ObjVal.ref 3, ObjVal.ref 4, ObjVal.ref 2])])
      , (3, ObjVal.dict [("Type", ObjVal.name "Page")])
      , (4, ObjVal.dict [("Type", ObjVal.name "Page")]) ]
    xref := [(1, XRefEntry.inUse 0), (2, XRefEntry.inUse 0),
             (3, XRefEntry.inUse 0), (4, XRefEntry.inUse 0)]
    trailer := [("Root", ObjVal.ref 1)]
    warnings := [] }

/-! ## Supporting lemmas -/

theorem lookupObj_perm {l1 l2 : List (Nat × ObjVal)} (h : l1.Perm l2) (n : Nat) :
    (l1.map Prod.fst).Nodup → lookupObj n l1 = lookupObj n l2 := by
  induction h with
  | nil => intro _; rfl
  | cons x h ih =>
    intro hnd
    simp only [List.map_cons, List.nodup_cons] at hnd
    simp only [lookupObj]
    by_cases hx : x.1 = n
    · simp [hx]
    · simp only [if_neg hx]
      exact ih hnd.2
  | swap x y l =>
    intro hnd
    simp only [List.map_cons, List.nodup_cons, List.mem_cons] at hnd
    push_neg at hnd
    have hxy : y.1 ≠ x.1 := hnd.1.1
    simp only [lookupObj]
    by_cases hy : y.1 = n
    · rw [if_pos hy, if_neg (by omega), if_pos hy]
    · by_cases hx : x.1 = n
      · simp [hx, hy]
      · simp [hx, hy]
  | trans h1 h2 ih1 ih2 =>
    intro hnd
    rw [ih1 hnd, ih2 ((h1.map Prod.fst).nodup_iff.mp hnd)]

theorem lookupObj_filter (q : Nat → Bool) (l : List (Nat × ObjVal)) (n : Nat) :
    lookupObj n (l.filter (fun p => q p.1)) =
      if q n then lookupObj n l else none := by
  induction l with
  | nil => cases hq : q n <;> simp [lookupObj, hq]
  | cons p rest ih =>
    by_cases hpn : p.1 = n
    · subst hpn
      cases hq : q p.1 <;> simp [List.filter, lookupObj, hq, ih]
    · cases hq : q p.1 <;> cases hqn : q n <;>
        simp [List.filter, lookupObj, hq, hqn, hpn, ih]

theorem lookupEntry_xrefFromBody (l : List (Nat × ObjVal)) (n : Nat) :
    lookupEntry n (xrefFromBody l) = (lookupObj n l).map (fun _ => XRefEntry.inUse 0) := by
  induction l with
  | nil => rfl
  | cons p rest ih =>
    simp only [xrefFromBody, List.map_cons, lookupEntry, lookupObj]
    by_cases hp : p.1 = n
    · simp [hp]
    · simp only [if_neg hp]
      exact ih

theorem sortBody_perm (l : List (Nat × ObjVal)) : (sortBody l).Perm l :=
  List.perm_insertionSort _ _

theorem nodup_keys_savedBody (d : Document)
    (hnd : (d.objects.map Prod.fst).Nodup) :
    ((sortBody (liveObjects d)).map Prod.fst).Nodup := by
  have hsub : List.Sublist ((liveObjects d).map Prod.fst) (d.objects.map Prod.fst) :=
    (List.filter_sublist d.objects).map Prod.fst
  have hlive : ((liveObjects d).map Prod.fst).Nodup := hnd.sublist hsub
  exact (((sortBody_perm (liveObjects d)).map Prod.fst).nodup_iff).mpr hlive

theorem lookupObj_savedBody (d : Document) (hnd : (d.objects.map Prod.fst).Nodup) (n : Nat) :
    lookupObj n (sortBody (liveObjects d)) =
      if liveB d.xref n then lookupObj n d.objects else none := by
  rw [lookupObj_perm (sortBody_perm (liveObjects d)) n (nodup_keys_savedBody d hnd)]
  exact lookupObj_filter (liveB d.xref) d.objects n

theorem getObject_fromBody (body : List (Nat × ObjVal)) (tr : List (String × ObjVal))
    (ws : List String) (n : Nat) :
    getObject { objects := body, xref := xrefFromBody body, trailer := tr, warnings := ws } n =
      (lookupObj n body).getD ObjVal.null := by
  unfold getObject
  simp only [lookupEntry_xrefFromBody]
  cases lookupObj n body <;> rfl

theorem getObject_roundtrip (d : Document) (hnd : (d.objects.map Prod.fst).Nodup)
    (tr : List (String × ObjVal)) (ws : List String) (n : Nat) :
    getObject { objects := sortBody (liveObjects d),
                xref := xrefFromBody (sortBody (liveObjects d)),
                trailer := tr, warnings := ws } n = getObject d n := by
  rw [getObject_fromBody]
  rw [lookupObj_savedBody d hnd n]
  unfold getObject liveB
  cases he : lookupEntry n d.xref with
  | none => rfl
  | some e => cases e <;> rfl

theorem recoveryScan_of_nodup (l : List (Nat × ObjVal)) :
    (l.map Prod.fst).Nodup → recoveryScan l = l := by
  induction l with
  | nil => intro _; rfl
  | cons p rest ih =>
    intro hnd
    simp only [List.map_cons, List.nodup_cons] at hnd
    simp only [recoveryScan, if_neg hnd.1, ih hnd.2]

theorem lookupEntry_freeBump (x : List (Nat × XRefEntry)) (n : Nat) :
    lookupEntry n (x.map (fun p => if p.1 = n then (p.1, freeBump p.2) else p)) =
      (lookupEntry n x).map freeBump := by
  induction x with
  | nil => rfl
  | cons p rest ih =>
    by_cases hp : p.1 = n
    · simp [lookupEntry, hp]
    · simp only [List.map_cons, if_neg hp, lookupEntry, if_neg hp]
      exact ih

theorem getObject_removeObject (d : Document) (n : Nat) :
    getObject (removeObject d n) n = ObjVal.null := by
  unfold getObject removeObject
  simp only [lookupEntry_freeBump]
  cases lookupEntry n d.xref with
  | none => rfl
  | some e => cases e <;> rfl

theorem getObjectByID_removeObject (d : Document) (n g : Nat) :
    getObjectByID (removeObject d n) n g = ObjVal.null := by
  unfold getObjectByID removeObject
  simp only [lookupEntry_freeBump]
  cases lookupEntry n d.xref with
  | none => rfl
  | some e => cases e <;> rfl

theorem pageWalk_inv (d : Document) (visited stack : List Nat) :
    (∀ p ∈ (pageWalk d visited stack).1, p ∉ visited) ∧
    (pageWalk d visited stack).1.Nodup ∧
    (visited.Nodup → (pageWalk d visited stack).2.Nodup) := by
  induction visited, stack using pageWalk.induct d with
  | case1 visited => simp [pageWalk]
  | case2 visited n rest hv ih =>
    rw [pageWalk]
    simp only [dif_pos hv]
    exact ih
  | case3 visited n rest hv hp ih =>
    rw [pageWalk]
    simp only [dif_neg hv, dif_pos hp]
    obtain ⟨ih1, ih2, ih3⟩ := ih
    refine ⟨?_, ?_, ?_⟩
    · intro p hpmem
      rcases List.mem_cons.mp hpmem with he | hm
      · exact he ▸ hv
      · exact fun hvv => ih1 p hm (List.mem_cons_of_mem n hvv)
    · refine List.nodup_cons.mpr ⟨fun hc => ih1 n hc (List.mem_cons_self n visited), ih2⟩
    · intro hnd
      exact ih3 (List.nodup_cons.mpr ⟨hv, hnd⟩)
  | case4 visited n rest hv hp ih =>
    rw [pageWalk]
    simp only [dif_neg hv, dif_neg hp]
    obtain ⟨ih1, ih2, ih3⟩ := ih
    refine ⟨?_, ih2, ?_⟩
    · intro p hpmem
      exact fun hvv => ih1 p hpmem (List.mem_cons_of_mem n hvv)
    · intro hnd
      exact ih3 (List.nodup_cons.mpr ⟨hv, hnd⟩)

theorem pageWalk_congr (d1 d2 : Document)
    (hg : ∀ n, getObject d1 n = getObject d2 n) :
    ∀ visited stack, pageWalk d1 visited stack = pageWalk d2 visited stack := by
  intro visited stack
  induction visited, stack using pageWalk.induct d1 with
  | case1 visited => rw [pageWalk, pageWalk]
  | case2 visited n rest hv ih =>
    rw [pageWalk, pageWalk]
    simp only [dif_pos hv]
    exact ih
  | case3 visited n rest hv hp ih =>
    rw [pageWalk, pageWalk]
    have hp2 : isPageNode (getObject d2 n) = true := by rw [← hg n]; exact hp
    simp only [dif_neg hv, dif_pos hp, dif_pos hp2, ih]
  | case4 visited n rest hv hp ih =>
    rw [pageWalk, pageWalk]
    have hp2 : ¬ isPageNode (getObject d2 n) = true := by rw [← hg n]; exact hp
    simp only [dif_neg hv, dif_neg hp, dif_neg hp2, hg n, ih]
    rw [← hg n]
    exact ih

theorem rootOf_congr (d1 d2 : Document) (ht : d1.trailer = d2.trailer)
    (hg : ∀ n, getObject d1 n = getObject d2 n) : rootOf d1 = rootOf d2 := by
  unfold rootOf resolve
  rw [ht]
  cases dictGet "Root" d2.trailer with
  | none => rfl
  | some v => cases v <;> simp [hg]

theorem getAllPages_congr (d1 d2 : Document) (ht : d1.trailer = d2.trailer)
    (hg : ∀ n, getObject d1 n = getObject d2 n) : getAllPages d1 = getAllPages d2 := by
  unfold getAllPages rootPagesStack
  rw [rootOf_congr d1 d2 ht hg, pageWalk_congr d1 d2 hg]

/-- On the cyclic fixture the page enumeration terminates and yields each of
the two pages exactly once, despite the /Kids back-reference to the
ancestor node 2. -/
theorem cyclicDoc_pages_each_once : getAllPages cyclicDoc = [3, 4] := by
  simp [getAllPages, rootPagesStack, rootOf, resolve, pageWalk, getObject, cyclicDoc,
    lookupEntry, lookupObj, isPageNode, dictGet, kidsOf]

/-! ## Claim theorems -/

/-- C1: an open failure surfaced from a `QPDFExc` is reported as
`PasswordError` exactly when the underlying error code is the
password-validation code `qpdf_e_password`; every other error code maps to
the generic `PDFError` category. -/
theorem C1_password_error_iff (code : QpdfErrorCode) (msg : String) :
    (code = QpdfErrorCode.e_password →
      register_exception_translator code msg = PyExc.PasswordError msg) ∧
    (code ≠ QpdfErrorCode.e_password →
      register_exception_translator code msg = PyExc.PDFError msg) ∧
    (∀ m, register_exception_translator code msg = PyExc.PasswordError m →
      code = QpdfErrorCode.e_password) := by
  refine ⟨?_, ?_, ?_⟩
  · intro h
    simp [register_exception_translator, h]
  · intro h
    simp [register_exception_translator, h]
  · intro m hm
    by_contra hne
    simp [register_exception_translator, hne] at hm

/-- C2: saving an (unencrypted) document and re-opening the saved bytes
yields a document with the same resolved root, the same trailer keys and
the same page order.  The hypothesis is the data-model invariant that the
object cache has one entry per object number. -/
theorem C2_roundtrip (d : Document) (rng : Nat)
    (hnd : (d.objects.map Prod.fst).Nodup) :
    ∃ d2, openFile true (saveFile d false rng) = Except.ok d2 ∧
      rootOf d2 = rootOf d ∧
      d2.trailer.map Prod.fst = d.trailer.map Prod.fst ∧
      getAllPages d2 = getAllPages d := by
  refine ⟨_, rfl, ?_, ?_, ?_⟩
  · apply rootOf_congr
    · rfl
    · intro n
      exact getObject_roundtrip d hnd _ _ n
  · rfl
  · apply getAllPages_congr
    · rfl
    · intro n
      exact getObject_roundtrip d hnd _ _ n

/-- C2 witness: the round trip evaluated on the two-page fixture. -/
theorem C2_roundtrip_witness :
    (exampleDoc.objects.map Prod.fst).Nodup ∧
    (∃ d2, openFile true (saveFile exampleDoc false 7) = Except.ok d2 ∧
      rootOf d2 = rootOf exampleDoc ∧
      d2.trailer.map Prod.fst = exampleDoc.trailer.map Prod.fst ∧
      getAllPages d2 = getAllPages exampleDoc) :=
  ⟨by decide, C2_roundtrip exampleDoc 7 (by decide)⟩

/-- C3: with `static_id = true` the saved output is a function of the
document alone — the per-save /ID comes from the content digest, not from
the per-save random value — so two saves of the same document are
byte-identical. -/
theorem C3_static_id_deterministic (d : Document) (r1 r2 : Nat) :
    saveFile d true r1 = saveFile d true r2 := by
  unfold saveFile
  simp

/-- C4: on a file whose declared xref offset is garbage but whose object
bodies are intact, opening with `attempt_recovery = true` reconstructs a
table under which the pages are exactly the original ones in order, and
opening with `attempt_recovery = false` fails with the structural error
category (`PDFError`). -/
theorem C4_recovery (d : Document) (rng : Nat)
    (hnd : (d.objects.map Prod.fst).Nodup) :
    (∃ d3, openFile true (corruptXref (saveFile d false rng)) = Except.ok d3 ∧
      getAllPages d3 = getAllPages d) ∧
    openFile false (corruptXref (saveFile d false rng)) =
      Except.error (PyExc.PDFError "unable to find trailer dictionary while recovering damaged file") := by
  have hrs : recoveryScan (sortBody (liveObjects d)) = sortBody (liveObjects d) :=
    recoveryScan_of_nodup _ (nodup_keys_savedBody d hnd)
  constructor
  · refine ⟨_, rfl, ?_⟩
    show getAllPages
      { objects := recoveryScan (sortBody (liveObjects d))
        xref := xrefFromBody (recoveryScan (sortBody (liveObjects d)))
        trailer := d.trailer
        warnings := ["file is damaged; attempting to reconstruct cross-reference table"] } =
        getAllPages d
    rw [hrs]
    apply getAllPages_congr
    · rfl
    · intro n
      exact getObject_roundtrip d hnd _ _ n
  · rfl

/-- C4 witness: recovery evaluated on the corrupted save of the two-page
fixture. -/
theorem C4_recovery_witness :
    (exampleDoc.objects.map Prod.fst).Nodup ∧
    ((∃ d3, openFile true (corruptXref (saveFile exampleDoc false 7)) = Except.ok d3 ∧
        getAllPages d3 = getAllPages exampleDoc) ∧
      openFile false (corruptXref (saveFile exampleDoc false 7)) =
        Except.error (PyExc.PDFError "unable to find trailer dictionary while recovering damaged file")) :=
  ⟨by decide, C4_recovery exampleDoc 7 (by decide)⟩

/-- C5: for every document — the page tree may contain /Kids cycles back to
an ancestor — the pages enumeration is a total function (it cannot loop
forever), the produced page list has no duplicates, and the visit trace
has no duplicates: no node is visited twice. -/
theorem C5_pages_cycle_safe (d : Document) :
    (getAllPages d).Nodup ∧ ((pageWalk d [] (rootPagesStack d)).2).Nodup :=
  ⟨(pageWalk_inv d [] (rootPagesStack d)).2.1,
   (pageWalk_inv d [] (rootPagesStack d)).2.2 List.nodup_nil⟩

/-- C6: after `remove_page`, dereferencing the removed object number — as a
bare lookup, through an indirect reference, or explicitly by id and any
generation — resolves to Null and never throws. -/
theorem C6_removed_page_resolves_null (d : Document) (n g : Nat) :
    getObject (removePage d n) n = ObjVal.null ∧
    resolve (removePage d n) (ObjVal.ref n) = ObjVal.null ∧
    getObjectByID (removePage d n) n g = ObjVal.null := by
  unfold removePage
  refine ⟨getObject_removeObject _ n, ?_, getObjectByID_removeObject _ n g⟩
  show resolve _ (ObjVal.ref n) = ObjVal.null
  unfold resolve
  exact getObject_removeObject _ n

/-- C7: `get_warnings` returns the accumulated diagnostics and clears the
store, so an immediately following call returns the empty sequence. -/
theorem C7_warnings_drain (d : Document) :
    (getWarnings d).1 = d.warnings ∧
    (getWarnings (getWarnings d).2).1 = [] :=
  ⟨rfl, rfl⟩

/-- C8: `save` with `static_id = true` forces the writer stream data mode
to uncompress (and sets the static ID flag), while `static_id = false`
leaves the writer configuration untouched; `SaveArgs` exposes no
independent stream-data-mode parameter, so the stream mode depends only on
`static_id`. -/
theorem C8_static_id_forces_uncompress (w : QPDFWriterConfig) (p : Bool) :
    (save ⟨true, p⟩ w).streamDataMode = StreamDataMode.s_uncompress ∧
    (save ⟨true, p⟩ w).staticID = true ∧
    save ⟨false, p⟩ w = w := by
  refine ⟨?_, ?_, ?_⟩ <;> simp [save]

/-- C9: `open_pdf` with zero positional arguments fails with
`ValueError "not enough arguments"` and with more than two positional
arguments fails with `ValueError "too many arguments"`, in both cases
performing no effect on any file or stream. -/
theorem C9_arity_errors (args : List PyArg) :
    (args.length = 0 →
      open_pdf args = ([], Except.error (PyExc.ValueError "not enough arguments"))) ∧
    (args.length > 2 →
      open_pdf args = ([], Except.error (PyExc.ValueError "too many arguments"))) := by
  constructor
  · intro h0
    rcases args with _ | ⟨a, rest⟩
    · rfl
    · simp at h0
  · intro h2
    rcases args with _ | ⟨a, rest⟩
    · simp at h2
    · have hr : rest.length > 1 := by
        simp only [List.length_cons] at h2
        omega
      simp [open_pdf, hr]

/-- C9 witness: concrete evaluations at zero and three arguments. -/
theorem C9_arity_errors_witness :
    open_pdf [] = ([], Except.error (PyExc.ValueError "not enough arguments")) ∧
    open_pdf [⟨false, false, false⟩, ⟨false, false, false⟩, ⟨false, false, false⟩] =
      ([], Except.error (PyExc.ValueError "too many arguments")) :=
  ⟨(C9_arity_errors []).1 rfl,
   (C9_arity_errors [⟨false, false, false⟩, ⟨false, false, false⟩, ⟨false, false, false⟩]).2
     (by decide)⟩

/-- C10: a first argument with both `read` and `seek` attributes that is a
`TextIOBase` instance makes `open_pdf` raise
`TypeError "stream must be binary, readable and seekable"` without reading
the stream; a first argument lacking `read` or `seek` is treated as a
filesystem path (`processFile`). -/
theorem C10_stream_dispatch (a0 : PyArg) (rest : List PyArg) (hlen : rest.length ≤ 1) :
    (a0.hasRead = true → a0.hasSeek = true → a0.isTextIOBase = true →
      open_pdf (a0 :: rest) =
        ([], Except.error (PyExc.TypeError "stream must be binary, readable and seekable"))) ∧
    ((a0.hasRead = false ∨ a0.hasSeek = false) →
      open_pdf (a0 :: rest) = ([OpenEffect.processFile], Except.ok ())) := by
  have hr : ¬ rest.length > 1 := by omega
  constructor
  · intro h1 h2 h3
    simp [open_pdf, hr, h1, h2, h3]
  · intro hlack
    rcases hlack with h | h <;> simp [open_pdf, hr, h]

/-- C10 witness: concrete evaluations for a text-mode stream argument and a
path-like argument. -/
theorem C10_stream_dispatch_witness :
    open_pdf [⟨true, true, true⟩] =
      ([], Except.error (PyExc.TypeError "stream must be binary, readable and seekable")) ∧
    open_pdf [⟨false, false, false⟩] = ([OpenEffect.processFile], Except.ok ()) :=
  ⟨(C10_stream_dispatch ⟨true, true, true⟩ [] (by decide)).1 rfl rfl rfl,
   (C10_stream_dispatch ⟨false, false, false⟩ [] (by decide)).2 (Or.inl rfl)⟩

end PikePdf
